import Mathlib

/-!
Verification development for the desktop transcription assistant
(`src/main.py`).  The definitions below are shallow embeddings of the
program's functions: pure string manipulation is embedded directly,
stateful handlers are embedded as explicit state-passing functions, and
the Qt signal/slot wiring is embedded as finite data derived from the
connections made in `TranscriberApp.start_recording`.  Each definition's
doc comment names the source function and lines it embeds.
-/

set_option maxRecDepth 4096
set_option linter.unusedVariables false

/-- Fixed prefix of the module-level `cleanup_prompt` f-string
(`main.py` lines 22-61): everything of the triple-quoted template up to
the final `transcript` interpolation, transcribed verbatim including
its indentation. -/
def cleanup_prompt_fixed_text : String :=
"Clean up a transcript to enhance readability and coherence.\n\n    Focus on removing filler words, correcting grammatical errors, and maintaining the original meaning while ensuring the text flows smoothly.\n\n    # Steps\n\n    1. **Remove Filler Words:** Identify common filler words such as \"um,\" \"uh,\" \"like,\" and \"you know,\" and remove them from the transcript.\n    \n    2. **Correct Grammatical Errors:** Identify and fix any grammatical errors, such as subject-verb agreement and punctuation mistakes.\n\n    3. **Enhance Readability:** Restructure sentences where needed to improve clarity and coherence, ensuring the text flows logically from one point to the next.\n\n    4. **Preserve Core Meaning:** While editing, make sure to maintain the original meaning and intent of the transcript.\n\n    5. Maintain the original tone of voice and perspective.\n\n    6. Suggest improvements to the transcript.\n\n  7. Apply suggested improvements in a finalised edited version\n\n\n    # Notes\n\n    - Avoid removing any essential information that could alter the meaning of the transcript.\n    - Pay attention to the context to ensure continuity and coherence in the conversation.\n\n    # Example output\n\n    %CLEANED UP\n   [Provide a clean, edited transcript, formatted as a coherent paragraph or series of paragraphs. Use section headings as appropriate to separate to clarify meaning]\n\n    %SUGGESTIONS FOR IMPROVEMENT\n    [Critique the transcript and suggest improvements]\n\n    %SUGGESTED FINAL\n[review suggested improvements and apply into this edited version]\n\n    Transcript:\n    "

/-- Embedding of the module-level function `cleanup_prompt(transcript="")`
(`main.py` lines 22-61): it returns the fixed template text with the
`transcript` argument interpolated at the very end. -/
def cleanup_prompt (transcript : String) : String :=
  cleanup_prompt_fixed_text ++ transcript

/-- Prompt actually submitted by `TranscriberApp.create_summary`
(`main.py` line 828): `prompt = cleanup_prompt(transcript)`.  The
method has access to the configured template `self.cleanup_prompt`
(loaded from settings, edited in the settings dialog); that configured
template is modelled as the first argument here, and — exactly as in
the source — it is never used: the module-level `cleanup_prompt`
function is applied to the transcript instead. -/
def create_summary_prompt (self_cleanup_prompt transcript : String) : String :=
  cleanup_prompt transcript

/-- Contents written to the summary file by `create_summary`
(`main.py` lines 840-843): the LLM response text, verbatim. -/
def create_summary_file_contents (response_text : String) : String :=
  response_text

/-- Summary file path computed by `create_summary` (`main.py` line 841):
`self.current_output_file.replace('.txt', '_summary.txt')`.  Python's
`str.replace` replaces every non-overlapping occurrence, scanning left
to right and never rescanning replacement text; this function is that
behaviour specialised to the literal arguments of the call site,
working on the character list. -/
def replace_txt_chars : List Char → List Char
  | '.' :: 't' :: 'x' :: 't' :: rest =>
      "_summary.txt".toList ++ replace_txt_chars rest
  | c :: rest => c :: replace_txt_chars rest
  | [] => []

/-- Summary file path as a string, per `main.py` line 841. -/
def summary_file_of (current_output_file : String) : String :=
  String.mk (replace_txt_chars current_output_file.toList)

/-- One transcript event delivered by the capture task: its text and
whether it is an `aai.RealtimeFinalTranscript` (the `isinstance` test
at `main.py` line 759). -/
structure TranscriptEvent where
  text : String
  is_final : Bool
deriving DecidableEq, Repr

/-- Observable state touched by `TranscriberApp.handle_transcript`:
the contents of the transcript file `self.current_output_file` and the
blocks appended to the `transcript_display` widget. -/
structure TranscriberUiState where
  transcript_file : String
  transcript_display : List String
deriving DecidableEq, Repr

/-- Embedding of `TranscriberApp.handle_transcript` (`main.py` lines
754-768): an event with falsy (empty) text returns immediately; a
final transcript appends `text + "\n"` to the file (open mode `"a"`)
and to the display; a partial transcript is only printed to stdout,
leaving both the file and the display unchanged. -/
def handle_transcript (st : TranscriberUiState) (transcript : TranscriptEvent) :
    TranscriberUiState :=
  if transcript.text = "" then st
  else if transcript.is_final then
    { transcript_file := st.transcript_file ++ (transcript.text ++ "\n")
      transcript_display := st.transcript_display ++ [transcript.text ++ "\n"] }
  else st

/-- Transcript file produced by delivering a sequence of events to
`handle_transcript`, starting from the empty session file created by
`start_recording`. -/
def run_handle_transcript (events : List TranscriptEvent) : TranscriberUiState :=
  events.foldl handle_transcript ⟨"", []⟩

/-- Claim-side definition, following the spec's words for C1: the
concatenation of exactly the final events' text, each followed by one
newline, in delivery order. -/
def spec_final_concat : List TranscriptEvent → String
  | [] => ""
  | e :: rest => (if e.is_final then e.text ++ "\n" else "") ++ spec_final_concat rest

/-- Concatenation of the non-empty final events' text, each followed by
one newline, in delivery order: what `handle_transcript` actually
persists, since falsy text returns before the write. -/
def nonempty_final_concat : List TranscriptEvent → String
  | [] => ""
  | e :: rest =>
      (if e.is_final && e.text ≠ "" then e.text ++ "\n" else "") ++
        nonempty_final_concat rest

/-- One utterance of a batch transcript: speaker label and text
(fields read at `main.py` line 1033). -/
structure Utterance where
  speaker : String
  text : String
deriving DecidableEq, Repr

/-- Diarized formatting loop of `TranscriberApp.upload_audio`
(`main.py` lines 1030-1033): starting from the empty string, append
`"Speaker {u.speaker}: {u.text}\n\n"` for each utterance in order. -/
def format_utterances : List Utterance → String
  | [] => ""
  | u :: rest => "Speaker " ++ u.speaker ++ ": " ++ u.text ++ "\n\n" ++
      format_utterances rest

/-- Contents written (mode `"w"`, so the file's exact contents) to the
transcript file by `upload_audio` after a completed batch transcription
(`main.py` lines 1029-1041): the diarized per-utterance format when the
multiple-speakers checkbox is checked, otherwise the plain transcript
text. -/
def upload_write_contents (speaker_labels_checked : Bool)
    (utterances : List Utterance) (plain_text : String) : String :=
  if speaker_labels_checked then format_utterances utterances else plain_text

/-- Python `str.isspace` characters stripped by `str.strip()`. -/
def py_isspace (c : Char) : Bool :=
  c = ' ' || c = '\t' || c = '\n' || c = '\r' || c = '\x0b' || c = '\x0c'

/-- Embedding of Python's `str.strip()` with no arguments: remove
leading and trailing whitespace. -/
def py_strip (s : String) : String :=
  String.mk (((s.toList.dropWhile py_isspace).reverse.dropWhile py_isspace).reverse)

/-- JSON values appearing in the settings file: the five persisted
fields are strings and the vocabulary is an array of strings. -/
inductive JVal where
  | jstr : String → JVal
  | jarr : List String → JVal
deriving DecidableEq, Repr

/-- Lookup in the association-list model of the JSON settings object
(Python `dict.get` restricted to the keys the program uses). -/
def jlookup : List (String × JVal) → String → Option JVal
  | [], _ => none
  | (k, v) :: rest, key => if k = key then some v else jlookup rest key

/-- The Settings record of the data model: the attributes
`TranscriberApp.load_settings` populates, plus the custom vocabulary
held in the `vocab_entry` field. -/
structure Settings where
  assembly_api_key : String
  gemini_api_key : String
  output_dir : String
  cleanup_prompt : String
  gemini_model : String
  custom_vocabulary : List String
deriving DecidableEq, Repr

/-- Embedding of `SettingsDialog.save_settings` (`main.py` lines
120-134): the JSON object written to the settings file.  The dialog's
widgets hold the record's field values; the saved object has exactly
five keys — the two API keys, the output directory and the prompt are
passed through `.strip()`, the model name is the combo box text as is.
No `CUSTOM_VOCABULARY` key is written by this method, even though the
dialog's `vocab_entry` widget exists and `load_settings` reads such a
key. -/
def SettingsDialog.save_settings (ui : Settings) : List (String × JVal) :=
  [("ASSEMBLY_API_KEY", .jstr (py_strip ui.assembly_api_key)),
   ("GOOGLE_API_KEY", .jstr (py_strip ui.gemini_api_key)),
   ("OUTPUT_DIR", .jstr (py_strip ui.output_dir)),
   ("CLEANUP_PROMPT", .jstr (py_strip ui.cleanup_prompt)),
   ("GEMINI_MODEL", .jstr ui.gemini_model)]

/-- Default output directory
`os.path.join(os.path.expanduser("~"), "Documents", "Transcriptions")`
(environment-dependent; modelled as a fixed placeholder string, which
no theorem below depends on). -/
def default_output_dir : String := "~/Documents/Transcriptions"

/-- Embedding of `TranscriberApp.get_custom_vocabulary` (`main.py`
lines 913-918): strip the entry text; if empty, the vocabulary is the
empty list, otherwise split on commas, strip each word and drop the
empty ones. -/
def get_custom_vocabulary (vocab_text : String) : List String :=
  let t := py_strip vocab_text
  if t = "" then []
  else ((t.split (fun c => c = ',')).map py_strip).filter (fun w => w ≠ "")

/-- Python `', '.join(vocab_list)` used by the loaders to fill the
vocabulary entry widget. -/
def join_comma_space : List String → String
  | [] => ""
  | [w] => w
  | w :: rest => w ++ ", " ++ join_comma_space rest

/-- Vocabulary value the application holds after
`TranscriberApp.load_settings` lines 456-459 followed by a read through
`get_custom_vocabulary`: the loader fetches `CUSTOM_VOCABULARY` with
default `[]`, and only when that list is non-empty sets the (initially
empty) entry widget to the comma-joined words. -/
def loaded_custom_vocabulary (json : List (String × JVal)) : List String :=
  match jlookup json "CUSTOM_VOCABULARY" with
  | some (.jarr l) => if l ≠ [] then get_custom_vocabulary (join_comma_space l) else []
  | _ => []

/-- String read from the JSON object with a Python-`get`-style default. -/
def jget_str (json : List (String × JVal)) (key : String) (dflt : String) : String :=
  match jlookup json key with
  | some (.jstr s) => s
  | _ => dflt

/-- Embedding of `TranscriberApp.load_settings` (`main.py` lines
443-461) for an existing settings file: each attribute is
`settings.get(KEY, default)`.  The source's default for
`CLEANUP_PROMPT` is the `cleanup_prompt` function object itself (not a
call — a latent type bug); that default is unreachable whenever the key
is present, as it is in every file `save_settings` writes, and is
modelled here by the default template text. -/
def TranscriberApp.load_settings (json : List (String × JVal)) : Settings :=
  { assembly_api_key := jget_str json "ASSEMBLY_API_KEY" ""
    gemini_api_key := jget_str json "GOOGLE_API_KEY" ""
    output_dir := jget_str json "OUTPUT_DIR" default_output_dir
    cleanup_prompt := jget_str json "CLEANUP_PROMPT" (cleanup_prompt "")
    gemini_model := jget_str json "GEMINI_MODEL" "gemini-1.5-flash"
    custom_vocabulary := loaded_custom_vocabulary json }

/-- Signals a `RecordingThread` can emit (`main.py` lines 302-304),
plus the `finished` signal every `QThread` emits when it ends. -/
inductive ThreadSignal where
  | transcript_received
  | error_occurred
  | recording_stopped
  | finished
deriving DecidableEq, Repr

/-- Outcome of one `RecordingThread.cleanup` call: which `close()`
calls completed, which attributes were reset to `None`, and which
signals the method emitted. -/
structure CleanupResult where
  transcriber_closed : Bool
  transcriber_cleared : Bool
  microphone_closed : Bool
  microphone_cleared : Bool
  emitted : List ThreadSignal
deriving DecidableEq, Repr

/-- Embedding of `RecordingThread.cleanup` (`main.py` lines 368-389).
The whole body is one `try` block: close the transcriber (if any) and
clear it, close the microphone stream (if any) and clear it, then emit
`recording_stopped`; a single `except` catches any exception raised
anywhere in that sequence and emits `error_occurred` instead, skipping
everything after the raising statement.  Inputs say which resources
are present and which `close()` call raises. -/
def RecordingThread.cleanup (has_transcriber has_microphone : Bool)
    (transcriber_close_raises microphone_close_raises : Bool) : CleanupResult :=
  if has_transcriber && transcriber_close_raises then
    { transcriber_closed := false, transcriber_cleared := false
      microphone_closed := false, microphone_cleared := false
      emitted := [.error_occurred] }
  else if has_microphone && microphone_close_raises then
    { transcriber_closed := has_transcriber, transcriber_cleared := has_transcriber
      microphone_closed := false, microphone_cleared := false
      emitted := [.error_occurred] }
  else
    { transcriber_closed := has_transcriber, transcriber_cleared := has_transcriber
      microphone_closed := has_microphone, microphone_cleared := has_microphone
      emitted := [.recording_stopped] }

/-- The three stop sequences named by the spec: a graceful user stop
(the thread terminates inside the 5-second `wait`), a timeout-forced
stop (`wait(5000)` fails, `terminate()` is called), and an error-driven
stop (the capture task emits `error_occurred`). -/
inductive StopPath where
  | graceful
  | timeout_forced
  | error_driven
deriving DecidableEq, Repr

/-- How many `update_ui_recording_stopped` invocations one delivery of
each thread signal produces on the UI context, per the connections made
in `start_recording` (`main.py` lines 711-714) and the slot bodies:
`recording_stopped` is connected directly to
`update_ui_recording_stopped` (line 713); `finished` is connected to
`handle_thread_finished` (line 714), which calls it (line 799);
`error_occurred` is connected to `handle_recording_error` (line 712),
which calls `stop_recording` (line 805), whose `finally` block calls it
(line 752); `transcript_received` goes to `handle_transcript`, which
never calls it. -/
def slot_stopped_notifications : ThreadSignal → Nat
  | .transcript_received => 0
  | .error_occurred => 1
  | .recording_stopped => 1
  | .finished => 1

/-- Signals the capture task emits on each stop path, in emission
order.  Graceful: `run`'s `finally` calls `cleanup`, which emits
`recording_stopped` (line 385), then the thread ends and Qt emits
`finished`.  Timeout-forced: `terminate()` kills the thread before
`cleanup` reaches its emit, and Qt emits `finished` for the terminated
thread.  Error-driven: the streaming callback emits `error_occurred`
(line 366), after which the stream call returns, `cleanup` emits
`recording_stopped`, and the thread ends with `finished` (the variant
in which the stream call instead raises adds a further
`error_occurred` from `run`'s `except`, line 344, only increasing the
counts below). -/
def thread_signals : StopPath → List ThreadSignal
  | .graceful => [.recording_stopped, .finished]
  | .timeout_forced => [.finished]
  | .error_driven => [.error_occurred, .recording_stopped, .finished]

/-- Direct `update_ui_recording_stopped` invocations the UI context
itself makes: on a user-initiated stop, `stop_recording`'s `finally`
block (line 752) runs once; on the error-driven path `stop_recording`
is entered only from the `error_occurred` slot, already counted in
`slot_stopped_notifications`. -/
def direct_stopped_notifications : StopPath → Nat
  | .graceful => 1
  | .timeout_forced => 1
  | .error_driven => 0

/-- Total number of times the Presentation Layer's stopped notification
(`update_ui_recording_stopped`) is invoked over one stop sequence. -/
def stopped_notification_count (p : StopPath) : Nat :=
  direct_stopped_notifications p + ((thread_signals p).map slot_stopped_notifications).sum

/-- Constructor arguments of the streaming connection created in
`RecordingThread.run` (`main.py` lines 323-328):
`aai.RealtimeTranscriber(on_data=..., on_error=..., sample_rate=44100,
end_utterance_silence_threshold=700)`.  Optional fields record which
configuration knobs are passed at all. -/
structure RealtimeTranscriberArgs where
  sample_rate : Nat
  end_utterance_silence_threshold : Nat
  language_code : Option String
  speaker_labels : Option Bool
  word_boost : Option (List String)
deriving DecidableEq, Repr

/-- Configuration dict built by `start_recording` (`main.py` lines
703-708) and stored on the thread as `transcriber_config`:
`speaker_labels` from the multiple-speakers checkbox and
`language_code` from the lower-cased combo-box text. -/
structure TranscriberConfig where
  speaker_labels : Bool
  language_code : String
deriving DecidableEq, Repr

/-- The `transcriber_config` attribute set in `start_recording`
(`main.py` line 708). -/
def start_recording_transcriber_config (multiple_speakers_checked : Bool)
    (language_combo_text : String) : TranscriberConfig :=
  { speaker_labels := multiple_speakers_checked
    language_code := language_combo_text.toLower }

/-- Arguments `RecordingThread.run` actually passes when it creates the
streaming connection (`main.py` lines 323-328).  The thread's stored
`transcriber_config` and the app's custom vocabulary are in scope —
they are this function's parameters — but `run` reads neither: the
connection gets the fixed sample rate (44100) and silence threshold
(700) only, and no language code, speaker-labels flag or word boost. -/
def RecordingThread.run_transcriber_args (transcriber_config : TranscriberConfig)
    (custom_vocabulary : List String) : RealtimeTranscriberArgs :=
  { sample_rate := 44100
    end_utterance_silence_threshold := 700
    language_code := none
    speaker_labels := none
    word_boost := none }

/-- Recording-related state of `TranscriberApp` for the start/toggle
paths: the capture-task handle `self.recording_thread` (a thread
identifier when present), the record button's label, and a counter for
naming freshly created threads. -/
structure AppRecState where
  recording_thread : Option Nat
  record_button_text : String
  next_thread_id : Nat
deriving DecidableEq, Repr

/-- The two branches of `TranscriberApp.toggle_recording`. -/
inductive ToggleAction where
  | invoke_start
  | invoke_stop
deriving DecidableEq, Repr

/-- Embedding of `TranscriberApp.toggle_recording` (`main.py` lines
650-655): dispatch on the record button's current label. -/
def toggle_recording (st : AppRecState) : ToggleAction :=
  if st.record_button_text = "Start Recording" then .invoke_start else .invoke_stop

/-- Result of one `start_recording` call: the new application state and
how many capture tasks the call spawned. -/
structure StartOutcome where
  state : AppRecState
  threads_spawned : Nat
deriving DecidableEq, Repr

/-- Embedding of the control-relevant effects of
`TranscriberApp.start_recording` (`main.py` lines 657-726): it returns
early only when the API keys fail validation (line 663); otherwise it
sets the button to "Stop Recording" (line 667), creates a new
`RecordingThread`, assigns it to `self.recording_thread` (line 701) —
overwriting whatever handle was there, with no check that a task is
already active — and starts it (line 720). -/
def start_recording (st : AppRecState) (keys_valid : Bool) : StartOutcome :=
  if keys_valid = false then { state := st, threads_spawned := 0 }
  else
    { state :=
        { recording_thread := some st.next_thread_id
          record_button_text := "Stop Recording"
          next_thread_id := st.next_thread_id + 1 }
      threads_spawned := 1 }

/-- Folding `handle_transcript` over any event sequence appends to the
transcript file exactly the non-empty final events' text, each followed
by one newline, in delivery order. -/
theorem handle_transcript_foldl_file (events : List TranscriptEvent)
    (st : TranscriberUiState) :
    (events.foldl handle_transcript st).transcript_file =
      st.transcript_file ++ nonempty_final_concat events := by
  induction events generalizing st with
  | nil => simp [nonempty_final_concat, String.append_empty]
  | cons e rest ih =>
    rw [List.foldl_cons, ih, nonempty_final_concat]
    by_cases h0 : e.text = ""
    · simp [handle_transcript, h0, String.append_empty]
    · by_cases hf : e.is_final = true
      · simp [handle_transcript, h0, hf, String.append_assoc]
      · simp [handle_transcript, h0, hf, String.append_empty]

/-- Claim C1, as stated, is false on the code: deliver a single final
event whose text is empty.  `handle_transcript` returns before the
write (`if not transcript.text: return`), so the transcript file stays
empty, while the concatenation of the final events' text each followed
by one newline is a lone newline. -/
theorem claim_C1_counterexample :
    (run_handle_transcript [⟨"", true⟩]).transcript_file ≠
      spec_final_concat [⟨"", true⟩] := by decide

/-- Claim C1, amended: for every sequence of TranscriptEvents delivered
to `handle_transcript` during a recording session, the transcript
file's final contents equal the concatenation of exactly the non-empty
final events' text, each followed by one newline, in delivery order;
partial events and empty-text events are never written to the file. -/
theorem claim_C1_transcript_file_contents (events : List TranscriptEvent) :
    (run_handle_transcript events).transcript_file =
      nonempty_final_concat events := by
  rw [run_handle_transcript, handle_transcript_foldl_file]
  exact String.empty_append _

/-- Claim C2: `create_summary` does not substitute the transcript into
the configured prompt template.  Whatever template the settings hold
(here the claim's "Clean: \x7btranscript\x7d"), the submitted prompt is
`cleanup_prompt(transcript)` — the hard-coded module-level template —
so for transcript "Hello world.\n" it is not the claimed literal
"Clean: Hello world.\n". -/
theorem claim_C2_submitted_prompt_ignores_configured_template :
    (∀ template transcript : String,
        create_summary_prompt template transcript = cleanup_prompt transcript) ∧
      cleanup_prompt "Hello world.\n" ≠ "Clean: Hello world.\n" := by
  refine ⟨fun _ _ => rfl, ?_⟩
  decide

/-- Claim C3, as stated, is false on the code: on a graceful stop the
Presentation Layer's stopped notification
(`update_ui_recording_stopped`) is invoked three times — from
`stop_recording`'s `finally` block, from the `recording_stopped` slot
connection, and from `handle_thread_finished` on the thread's
`finished` signal — not exactly once. -/
theorem claim_C3_counterexample :
    stopped_notification_count StopPath.graceful ≠ 1 := by decide

/-- Claim C3, amended: on every stop path (graceful, timeout-forced,
error-driven) the caller receives the terminal stopped notification at
least once — but not exactly once: it is delivered three times on a
graceful stop, twice on a timeout-forced stop and three times on an
error-driven stop (the UI update is idempotent). -/
theorem claim_C3_stopped_notification_counts :
    stopped_notification_count StopPath.graceful = 3 ∧
      stopped_notification_count StopPath.timeout_forced = 2 ∧
      stopped_notification_count StopPath.error_driven = 3 ∧
      ∀ p : StopPath, 1 ≤ stopped_notification_count p := by
  refine ⟨by decide, by decide, by decide, ?_⟩
  intro p
  cases p <;> decide

/-- Claim C4, as stated, is false on the code: when closing the
streaming connection raises, `cleanup`'s single `except` block catches
the exception but skips closing the audio source and emits
`error_occurred` instead of `recording_stopped`. -/
theorem claim_C4_counterexample :
    ¬ ((RecordingThread.cleanup true true true false).microphone_closed = true ∧
        (RecordingThread.cleanup true true true false).emitted =
          [ThreadSignal.recording_stopped]) := by decide

/-- Claim C4, amended: an exception raised while closing the streaming
connection or the audio source is always caught (cleanup completes and
emits exactly one signal), but it does not leave teardown unconditional:
`recording_stopped` is emitted precisely when no performed close
raised; a raising connection close skips the audio-source close; and on
any raise `error_occurred` is emitted instead of the stopped signal. -/
theorem claim_C4_cleanup_exception_behaviour :
    ∀ has_transcriber has_microphone tr_raises mic_raises : Bool,
      ((RecordingThread.cleanup has_transcriber has_microphone tr_raises
          mic_raises).emitted = [ThreadSignal.recording_stopped] ∨
        (RecordingThread.cleanup has_transcriber has_microphone tr_raises
          mic_raises).emitted = [ThreadSignal.error_occurred]) ∧
      ((RecordingThread.cleanup has_transcriber has_microphone tr_raises
          mic_raises).emitted = [ThreadSignal.recording_stopped] ↔
        (has_transcriber && tr_raises) = false ∧
          (has_microphone && mic_raises) = false) ∧
      (RecordingThread.cleanup true has_microphone true
          mic_raises).microphone_closed = false := by decide

/-- Claim C5, as stated, is false on the code.  `SettingsDialog.save_settings`
writes no `CUSTOM_VOCABULARY` key at all, so an empty vocabulary is not
serialized as an empty sequence, and a non-empty vocabulary does not
survive a save/reload round trip: it reloads as the empty default. -/
theorem claim_C5_counterexample :
    jlookup (SettingsDialog.save_settings
        ⟨"k1", "k2", "/out", "prompt", "gemini-1.5-flash", []⟩)
        "CUSTOM_VOCABULARY" ≠ some (JVal.jarr []) ∧
      TranscriberApp.load_settings (SettingsDialog.save_settings
        ⟨"k1", "k2", "/out", "prompt", "gemini-1.5-flash", ["PyQt6"]⟩) ≠
        ⟨"k1", "k2", "/out", "prompt", "gemini-1.5-flash", ["PyQt6"]⟩ := by
  constructor <;> decide

/-- Claim C5, amended: the dialog save persists exactly the two API
keys, the output directory and the prompt template (each stripped of
surrounding whitespace) and the model name; when those four stripped
fields carry no surrounding whitespace, saving and reloading restores
every one of the five persisted fields — but the custom vocabulary is
not written (the saved JSON has no `CUSTOM_VOCABULARY` key), so it
always reloads as the empty default rather than the saved record's
list. -/
theorem claim_C5_dialog_save_round_trip (s : Settings)
    (h1 : py_strip s.assembly_api_key = s.assembly_api_key)
    (h2 : py_strip s.gemini_api_key = s.gemini_api_key)
    (h3 : py_strip s.output_dir = s.output_dir)
    (h4 : py_strip s.cleanup_prompt = s.cleanup_prompt) :
    TranscriberApp.load_settings (SettingsDialog.save_settings s) =
        { s with custom_vocabulary := [] } ∧
      jlookup (SettingsDialog.save_settings s) "CUSTOM_VOCABULARY" = none := by
  obtain ⟨a, g, o, c, m, v⟩ := s
  simp only at h1 h2 h3 h4
  refine ⟨?_, rfl⟩
  show (⟨py_strip a, py_strip g, py_strip o, py_strip c, m, []⟩ : Settings) =
    ⟨a, g, o, c, m, []⟩
  rw [h1, h2, h3, h4]

/-- Witness for claim C5's amended theorem at a concrete record with a
non-empty vocabulary: the reload agrees on the five persisted fields
and empties the vocabulary, and the saved JSON has no vocabulary key. -/
theorem claim_C5_dialog_save_round_trip_witness :
    TranscriberApp.load_settings (SettingsDialog.save_settings
        ⟨"k1", "k2", "/out", "prompt", "gemini-1.5-flash", ["PyQt6"]⟩) =
        ⟨"k1", "k2", "/out", "prompt", "gemini-1.5-flash", []⟩ ∧
      jlookup (SettingsDialog.save_settings
        ⟨"k1", "k2", "/out", "prompt", "gemini-1.5-flash", ["PyQt6"]⟩)
        "CUSTOM_VOCABULARY" = none :=
  claim_C5_dialog_save_round_trip
    ⟨"k1", "k2", "/out", "prompt", "gemini-1.5-flash", ["PyQt6"]⟩
    (by decide) (by decide) (by decide) (by decide)

/-- Claim C6, as stated, is false on the code: with the
multiple-speakers box checked, the Spanish language selected and a
vocabulary hint, the streaming connection created by
`RecordingThread.run` carries none of the language code, the
diarization flag or the vocabulary. -/
theorem claim_C6_counterexample :
    ¬ ((RecordingThread.run_transcriber_args
          (start_recording_transcriber_config true "Spanish (es)")
          ["PyQt6"]).language_code =
        some (start_recording_transcriber_config true "Spanish (es)").language_code ∧
      (RecordingThread.run_transcriber_args
          (start_recording_transcriber_config true "Spanish (es)")
          ["PyQt6"]).speaker_labels =
        some (start_recording_transcriber_config true "Spanish (es)").speaker_labels ∧
      (RecordingThread.run_transcriber_args
          (start_recording_transcriber_config true "Spanish (es)")
          ["PyQt6"]).word_boost = some ["PyQt6"]) := by decide

/-- Claim C6, amended: for every configuration and vocabulary, the
streaming connection opened by the capture task is created with the
fixed sample rate 44100 (and utterance-silence threshold 700) only; the
configuration dict that `start_recording` stores on the thread and the
vocabulary hints are never applied to the connection. -/
theorem claim_C6_streaming_connection_fixed_args
    (transcriber_config : TranscriberConfig) (custom_vocabulary : List String) :
    RecordingThread.run_transcriber_args transcriber_config custom_vocabulary =
      ⟨44100, 700, none, none, none⟩ := rfl

/-- Claim C7, as stated, is false on the code: a `start_recording`
invocation in a state where a capture task is already active (handle
present, button showing "Stop Recording") is not rejected — with valid
keys it spawns a new capture task and overwrites the stored handle. -/
theorem claim_C7_counterexample :
    ¬ ((start_recording ⟨some 0, "Stop Recording", 1⟩ true).threads_spawned = 0) := by
  decide

/-- Claim C7, amended: the one-active-task constraint is enforced only
at the UI toggle: whenever the record button's label is not
"Start Recording" (as it is while a task is active), `toggle_recording`
dispatches to stop, so start is never invoked through the toggle; a
direct `start_recording` call in such a state is not rejected — it
spawns one new capture task and replaces the stored handle. -/
theorem claim_C7_toggle_guard :
    (∀ st : AppRecState, st.record_button_text ≠ "Start Recording" →
        toggle_recording st = ToggleAction.invoke_stop) ∧
      (start_recording ⟨some 0, "Stop Recording", 1⟩ true).threads_spawned = 1 ∧
      (start_recording ⟨some 0, "Stop Recording", 1⟩ true).state.recording_thread =
        some 1 := by
  refine ⟨?_, by decide, by decide⟩
  intro st h
  simp [toggle_recording, h]

/-- Witness for claim C7's amended theorem: in the active-recording
state the button reads "Stop Recording", and the toggle dispatches to
stop. -/
theorem claim_C7_toggle_guard_witness :
    ("Stop Recording" : String) ≠ "Start Recording" ∧
      toggle_recording ⟨some 0, "Stop Recording", 1⟩ = ToggleAction.invoke_stop :=
  ⟨by decide, claim_C7_toggle_guard.1 ⟨some 0, "Stop Recording", 1⟩ (by decide)⟩

/-- Claim C8: with diarization enabled, the upload transcription path
writes exactly "Speaker A: Hi\n\nSpeaker B: Hello\n\n" to the
transcript file for the utterances [("A", "Hi"), ("B", "Hello")],
whatever the plain transcript text would have been. -/
theorem claim_C8_upload_diarized_format (plain_text : String) :
    upload_write_contents true [⟨"A", "Hi"⟩, ⟨"B", "Hello"⟩] plain_text =
      "Speaker A: Hi\n\nSpeaker B: Hello\n\n" := rfl

/-- Claim C9: an event whose text is the empty string is dropped by
`handle_transcript` before any write: the transcript file and the
display are both left unchanged, final or not. -/
theorem claim_C9_empty_text_events_dropped (st : TranscriberUiState)
    (e : TranscriptEvent) (h : e.text = "") :
    handle_transcript st e = st := by
  simp [handle_transcript, h]

/-- Witness for claim C9 at a concrete state and a concrete final event
with empty text. -/
theorem claim_C9_empty_text_events_dropped_witness :
    (TranscriptEvent.mk "" true).text = "" ∧
      handle_transcript ⟨"file contents", ["shown"]⟩ ⟨"", true⟩ =
        ⟨"file contents", ["shown"]⟩ :=
  ⟨rfl, claim_C9_empty_text_events_dropped ⟨"file contents", ["shown"]⟩ ⟨"", true⟩ rfl⟩

/-- Claim C10: the summary path replaces every occurrence of ".txt" in
the whole transcript path with "_summary.txt": a directory component
containing ".txt" is rewritten along with the extension, a stacked
extension is rewritten twice, and a path with a single final ".txt"
gets only its extension rewritten. -/
theorem claim_C10_summary_path_replaces_every_occurrence :
    summary_file_of "/home/u/notes.txt/transcript.txt" =
        "/home/u/notes_summary.txt/transcript_summary.txt" ∧
      summary_file_of "/home/u/session/transcript.txt.txt" =
        "/home/u/session/transcript_summary.txt_summary.txt" ∧
      summary_file_of "/home/u/session/transcript.txt" =
        "/home/u/session/transcript_summary.txt" := by
  refine ⟨by decide, by decide, by decide⟩
